import Mathlib

/-!
Verification development for the opencodex streaming execution and session
concurrency core.  The definitions below are shallow embeddings of the Rust
functions in `src/codex.rs`, `src/session.rs`, `src/telegram/message.rs`,
`src/telegram/commands.rs`, `src/telegram/file_ops.rs` and
`src/telegram/streaming.rs`.  Effectful code (subprocess I/O, the shared
mutex, Telegram calls) is modelled by explicit state passing and by scripts
that supply the data the environment would produce.
-/

namespace Opencodex

/-- JSON values as produced by serde_json for the backend protocol.
Numbers are restricted to integers, which is all the two backend
vocabularies use (exit codes and ids). -/
inductive Json where
  | null
  | bool (b : Bool)
  | num (n : Int)
  | str (s : String)
  | arr (elems : List Json)
  | obj (fields : List (String × Json))

/-- `serde_json::Value::get(key)` on an object (first matching key). -/
def Json.getKey : Json → String → Option Json
  | .obj fields, key => fields.lookup key
  | _, _ => none

/-- `Value::as_str`. -/
def Json.as_str : Json → Option String
  | .str s => some s
  | _ => none

/-- `Value::as_bool`. -/
def Json.as_bool : Json → Option Bool
  | .bool b => some b
  | _ => none

/-- `Value::as_array`. -/
def Json.as_array : Json → Option (List Json)
  | .arr xs => some xs
  | _ => none

/-- `Value::as_i64`. -/
def Json.as_i64 : Json → Option Int
  | .num n => some n
  | _ => none

mutual

/-- `serde_json::to_string` (string escaping elided: the inputs this
development evaluates it on contain no characters needing escapes). -/
def Json.render : Json → String
  | .null => "null"
  | .bool true => "true"
  | .bool false => "false"
  | .num n => toString n
  | .str s => "\"" ++ s ++ "\""
  | .arr xs => "[" ++ Json.renderList xs ++ "]"
  | .obj fs => "\x7b" ++ Json.renderFields fs ++ "\x7d"

def Json.renderList : List Json → String
  | [] => ""
  | [x] => Json.render x
  | x :: y :: rest => Json.render x ++ "," ++ Json.renderList (y :: rest)

def Json.renderFields : List (String × Json) → String
  | [] => ""
  | [(k, v)] => "\"" ++ k ++ "\":" ++ Json.render v
  | (k, v) :: f :: rest =>
      "\"" ++ k ++ "\":" ++ Json.render v ++ "," ++ Json.renderFields (f :: rest)

end

/-- `StreamMessage` from `src/codex.rs`: the normalized stream event model. -/
inductive StreamMessage where
  | init (session_id : String)
  | text (content : String)
  | tool_use (name : String) (input : String)
  | tool_result (content : String) (is_error : Bool)
  | task_notification (task_id : String) (status : String) (summary : String)
  | done (result : String) (session_id : Option String)
  | error (message : String)
deriving DecidableEq

/-- Substring test on character lists (Rust `str::contains`). -/
def containsSub : List Char → List Char → Bool
  | _, [] => true
  | [], _ :: _ => false
  | c :: rest, p :: ps =>
      List.isPrefixOf (p :: ps) (c :: rest) || containsSub rest (p :: ps)

/-- Rust `str::contains` for substring patterns. -/
def str_contains (hay pat : String) : Bool :=
  containsSub hay.data pat.data

/-- Rust `str::to_lowercase`, modelled per character (the strings this
program lowercases are compared against ASCII phrases, where per-character
lowering agrees with the Unicode mapping). -/
def to_lowercase (s : String) : String :=
  ⟨s.data.map Char.toLower⟩

/-- Whitespace as used by Rust `str::trim`, restricted to the ASCII
whitespace characters, which are the only ones appearing in the texts this
program trims. -/
def is_trim_whitespace (c : Char) : Bool :=
  c = ' ' || c = '\t' || c = '\n' || c = '\r'

/-- Rust `str::trim`. -/
def str_trim (s : String) : String :=
  ⟨((s.data.dropWhile is_trim_whitespace).reverse.dropWhile
      is_trim_whitespace).reverse⟩

/-- Rust `str::trim_end`. -/
def str_trim_end (s : String) : String :=
  ⟨(s.data.reverse.dropWhile is_trim_whitespace).reverse⟩

/-- Character content of `Vec::join("\n")`. -/
def join_newline_chars : List String → List Char
  | [] => []
  | [s] => s.data
  | s :: t :: rest => s.data ++ '\n' :: join_newline_chars (t :: rest)

/-- Rust `Vec::<&str>::join("\n")`. -/
def join_newline (parts : List String) : String :=
  ⟨join_newline_chars parts⟩

/-- One `text`/`tool_use` content block of an OMX `assistant` event
(`src/codex.rs`, `parse_codex_stream_line`, `"assistant"` arm). -/
def parse_assistant_block (block : Json) : List StreamMessage :=
  match (block.getKey "type").bind Json.as_str with
  | some "text" =>
      let text := ((block.getKey "text").bind Json.as_str).getD ""
      if text ≠ "" then [StreamMessage.text text] else []
  | some "tool_use" =>
      let name := ((block.getKey "name").bind Json.as_str).getD "Tool"
      let input := ((block.getKey "input").map (fun v =>
          match v.as_str with
          | some s => s
          | none => v.render)).getD ""
      [StreamMessage.tool_use name input]
  | _ => []

/-- `parse_codex_stream_line` from `src/codex.rs` (lines 711-904): parse one
backend JSONL event into zero or more `StreamMessage` values. -/
def parse_codex_stream_line (json : Json) : List StreamMessage :=
  match (json.getKey "type").bind Json.as_str with
  | none => []
  | some event_type =>
    match event_type with
    | "system" =>
        if (json.getKey "subtype").bind Json.as_str = some "init" then
          match (json.getKey "session_id").bind Json.as_str with
          | some session_id => [StreamMessage.init session_id]
          | none => []
        else []
    | "assistant" =>
        match ((json.getKey "message").bind (fun m => m.getKey "content")).bind
            Json.as_array with
        | some content => content.flatMap parse_assistant_block
        | none => []
    | "result" =>
        let result_text := ((json.getKey "result").bind Json.as_str).getD ""
        let session_id := (json.getKey "session_id").bind Json.as_str
        let is_err := ((json.getKey "is_error").bind Json.as_bool).getD false
        let error_part :=
          if is_err then
            let errors := (((json.getKey "errors").bind Json.as_array).map
                (fun arr => join_newline (arr.filterMap Json.as_str))).getD ""
            let message :=
              if errors ≠ "" then errors
              else if str_trim result_text ≠ "" then result_text
              else "OMX execution failed"
            [StreamMessage.error message]
          else []
        error_part ++ [StreamMessage.done result_text session_id]
    | "thread.started" =>
        match (json.getKey "thread_id").bind Json.as_str with
        | some thread_id => [StreamMessage.init thread_id]
        | none => []
    | "item.started" =>
        match json.getKey "item" with
        | some item =>
            if (item.getKey "type").bind Json.as_str = some "command_execution" then
              let command := ((item.getKey "command").bind Json.as_str).getD ""
              if command ≠ "" then [StreamMessage.tool_use "Bash" command] else []
            else []
        | none => []
    | "item.completed" =>
        match json.getKey "item" with
        | some item =>
            match (item.getKey "type").bind Json.as_str with
            | some "agent_message" =>
                let text := ((item.getKey "text").bind Json.as_str).getD ""
                if text ≠ "" then [StreamMessage.text text] else []
            | some "command_execution" =>
                let output := str_trim_end (((item.getKey "aggregated_output").bind
                    Json.as_str).getD "")
                let exit_code := (item.getKey "exit_code").bind Json.as_i64
                let is_err := exit_code.getD 0 ≠ 0
                if output ≠ "" ∨ is_err then
                  let content :=
                    if output ≠ "" then output
                    else "Command exited with code " ++ toString (exit_code.getD (-1))
                  [StreamMessage.tool_result content is_err]
                else []
            | some "error" =>
                let message := str_trim (((item.getKey "message").bind Json.as_str).getD "")
                if message ≠ "" ∧
                    ¬ (str_contains message "Under-development features enabled" = true) then
                  [StreamMessage.error message]
                else []
            | _ => []
        | none => []
    | "turn.completed" =>
        [StreamMessage.done "" none]
    | _ => []

/-- The fixed stderr phrases of `is_retryable_resume_error`
(`src/codex.rs`, lines 343-360). -/
def known_resume_error_patterns : List String :=
  ["failed to resume",
   "could not resume",
   "cannot resume",
   "can\x27t resume",
   "unable to resume",
   "invalid value for \x27--resume\x27",
   "invalid value for \"--resume\"",
   "thread not found",
   "session not found",
   "conversation not found",
   "unknown thread",
   "unknown session",
   "no such thread",
   "no such session",
   "expired thread",
   "expired session"]

/-- `is_retryable_resume_error` from `src/codex.rs` (lines 341-375):
the stale-resume heuristic on captured stderr text. -/
def is_retryable_resume_error (stderr_output : String) : Bool :=
  let lower := to_lowercase stderr_output
  if known_resume_error_patterns.any (fun pattern => str_contains lower pattern) then
    true
  else
    let has_resume_context :=
      str_contains lower "--resume" || str_contains lower "resume "
    let has_missing_or_invalid_hint :=
      str_contains lower "not found" || str_contains lower "does not exist" ||
      str_contains lower "unknown" || str_contains lower "no such" ||
      str_contains lower "expired" || str_contains lower "invalid"
    has_resume_context && has_missing_or_invalid_hint

/-- One character of the session id character class `[a-zA-Z0-9_-]`. -/
def session_id_char_ok (c : Char) : Bool :=
  c.isAlphanum || c = '_' || c = '-'

/-- `is_valid_session_id` from `src/codex.rs` (lines 172-174): nonempty,
at most 64 bytes, and matching `^[a-zA-Z0-9_-]+$`. -/
def is_valid_session_id (session_id : String) : Bool :=
  session_id ≠ "" && decide (session_id.utf8ByteSize ≤ 64) &&
    session_id.data.all session_id_char_ok

/-- The two CLI backends (`BackendKind` in `src/codex.rs`). -/
inductive BackendKind where
  | codex
  | omx
deriving DecidableEq

/-- `ai_binary_name` from `src/codex.rs`. -/
def ai_binary_name : BackendKind → String
  | .codex => "codex"
  | .omx => "omx"

/-- `codex_args` from `src/codex.rs` (lines 249-278).  The `madmax` field of
the process-global `ExecutionOptions` is passed as a parameter. -/
def codex_args (madmax : Bool) (session_id : Option String) (working_dir : String) :
    Except String (List String) :=
  let args := ["-C", working_dir] ++
    (if madmax then ["--dangerously-bypass-approvals-and-sandbox"]
     else ["--sandbox", "danger-full-access", "-a", "never"]) ++ ["exec"]
  match session_id with
  | some sid =>
      if is_valid_session_id sid then
        Except.ok (args ++ ["resume", sid, "--json", "-"])
      else
        Except.error "Invalid session ID format"
  | none =>
      Except.ok (args ++ ["--json", "--skip-git-repo-check", "-"])

/-- `omx_args` from `src/codex.rs` (lines 280-312). -/
def omx_args (madmax : Bool) (session_id : Option String) (working_dir : String) :
    Except String (List String) :=
  let args := ["--cd", working_dir] ++
    (if madmax then ["--madmax"]
     else ["--sandbox", "danger-full-access", "-a", "never"]) ++ ["exec"]
  match session_id with
  | some sid =>
      if is_valid_session_id sid then
        Except.ok (args ++ ["resume", sid, "--json", "-"])
      else
        Except.error "Invalid session ID format"
  | none =>
      Except.ok (args ++ ["--json", "--skip-git-repo-check", "-"])

/-- `backend_args` from `src/codex.rs` (lines 314-323). -/
def backend_args (backend : BackendKind) (madmax : Bool) (session_id : Option String)
    (working_dir : String) : Except String (List String) :=
  match backend with
  | .codex => codex_args madmax session_id working_dir
  | .omx => omx_args madmax session_id working_dir

/-- Observable side effects of one attempt of `execute_command_streaming_once`:
a message sent on the mpsc channel, `child.kill()`, and `child.wait()`. -/
inductive Effect where
  | send (msg : StreamMessage)
  | kill
  | wait_child
deriving DecidableEq

/-- `StreamingAttemptOutcome` from `src/codex.rs` (lines 326-333). -/
structure StreamingAttemptOutcome where
  done_sent : Bool
  last_session_id : Option String
  status_success : Bool
  status_code : Option Int
  stderr_output : String
  emitted_message_count : Nat
deriving DecidableEq

/-- `StreamingAttemptState` from `src/codex.rs` (lines 335-339). -/
inductive StreamingAttemptState where
  | completed (outcome : StreamingAttemptOutcome)
  | cancelled
deriving DecidableEq

/-- The per-message mutation inside the stdout loop of
`execute_command_streaming_once` (lines 460-487): `Init` updates the last
seen session id, a `Done` without a session id receives the current last
seen one, and any `Done` marks `done_sent`.  Returns the messages as sent
plus the updated `(last_session_id, done_sent)` pair. -/
def adjust_messages : List StreamMessage → Option String → Bool →
    List StreamMessage × Option String × Bool
  | [], last_session_id, done_sent => ([], last_session_id, done_sent)
  | msg :: rest, last_session_id, done_sent =>
    match msg with
    | .init sid =>
        let (r, s, d) := adjust_messages rest (some sid) done_sent
        (StreamMessage.init sid :: r, s, d)
    | .done result none =>
        let (r, s, d) := adjust_messages rest last_session_id true
        (StreamMessage.done result last_session_id :: r, s, d)
    | .done result (some sid) =>
        let (r, s, d) := adjust_messages rest last_session_id true
        (StreamMessage.done result (some sid) :: r, s, d)
    | _ =>
        let (r, s, d) := adjust_messages rest last_session_id done_sent
        (msg :: r, s, d)

/-- Whether the cancellation flag is seen set at the check numbered
`check_index`.  `cancel_at` is the number of the first check that observes
the flag (the flag is sticky, so every later check observes it too);
`none` means the flag is never set during the attempt. -/
def cancel_observed (cancel_at : Option Nat) (check_index : Nat) : Bool :=
  match cancel_at with
  | some n => decide (n ≤ check_index)
  | none => false

/-- The stdout loop of `execute_command_streaming_once` (`src/codex.rs`,
lines 429-511).  `lines` is the sequence of stdout lines, `none` standing
for an empty or non-JSON line (skipped by the loop).  Checks of the
cancellation flag are numbered in program order: one at the top of each
loop iteration and one more after the stream is exhausted.  The process
exit status and the stderr reader thread result are environment inputs.
The receiver is assumed alive for the whole attempt (the polling loop
holds it), so channel sends succeed. -/
def run_attempt_loop (cancel_at : Option Nat) (check_index : Nat)
    (lines : List (Option Json)) (last_session_id : Option String)
    (done_sent : Bool) (emitted_message_count : Nat) (status_success : Bool)
    (status_code : Option Int) (stderr_output : String) :
    List Effect × StreamingAttemptState :=
  if cancel_observed cancel_at check_index then
    ([Effect.kill, Effect.wait_child], StreamingAttemptState.cancelled)
  else
    match lines with
    | [] =>
        if cancel_observed cancel_at (check_index + 1) then
          ([Effect.kill, Effect.wait_child], StreamingAttemptState.cancelled)
        else
          ([Effect.wait_child], StreamingAttemptState.completed
            ⟨done_sent, last_session_id, status_success, status_code,
             stderr_output, emitted_message_count⟩)
    | none :: rest =>
        run_attempt_loop cancel_at (check_index + 1) rest last_session_id
          done_sent emitted_message_count status_success status_code stderr_output
    | some j :: rest =>
        let (msgs, sid2, ds2) :=
          adjust_messages (parse_codex_stream_line j) last_session_id done_sent
        let (trace, st) :=
          run_attempt_loop cancel_at (check_index + 1) rest sid2 ds2
            (emitted_message_count + msgs.length) status_success status_code
            stderr_output
        (msgs.map Effect.send ++ trace, st)

/-- `execute_command_streaming_once` (`src/codex.rs`, lines 377-512),
starting from the freshly spawned state. -/
def execute_command_streaming_once (lines : List (Option Json))
    (cancel_at : Option Nat) (status_success : Bool) (status_code : Option Int)
    (stderr_output : String) : List Effect × StreamingAttemptState :=
  run_attempt_loop cancel_at 0 lines none false 0 status_success status_code
    stderr_output

/-- The events the normalizer would emit for a line sequence, threading the
`(last_session_id, done_sent)` state across lines exactly as the stdout
loop does. -/
def emitted_events : List (Option Json) → Option String → Bool → List StreamMessage
  | [], _, _ => []
  | none :: rest, last_session_id, done_sent =>
      emitted_events rest last_session_id done_sent
  | some j :: rest, last_session_id, done_sent =>
      let (msgs, sid2, ds2) :=
        adjust_messages (parse_codex_stream_line j) last_session_id done_sent
      msgs ++ emitted_events rest sid2 ds2

/-- `Option::is_some` wrapped for readability of the retry condition. -/
def option_is_some {α : Type} : Option α → Bool
  | some _ => true
  | none => false

/-- The retry guard of `execute_command_streaming` (`src/codex.rs`,
lines 669-673), in source order. -/
def retry_condition (outcome : StreamingAttemptOutcome)
    (attempt_session_id : Option String) (retried_without_resume : Bool) : Bool :=
  !outcome.status_success && option_is_some attempt_session_id &&
    !retried_without_resume && decide (outcome.emitted_message_count = 0) &&
    is_retryable_resume_error outcome.stderr_output

/-- Rust `format!("{:?}", opt)` for an `Option<i32>`. -/
def debug_option_int : Option Int → String
  | some n => "Some(" ++ toString n ++ ")"
  | none => "None"

/-- Result of one whole `execute_command_streaming` call: the session id
passed to each spawned attempt in order, the events the orchestrator itself
synthesized after the final attempt, and whether the run ended cancelled. -/
structure RunSummary where
  attempt_session_ids : List (Option String)
  synthesized : List StreamMessage
  cancelled : Bool
deriving DecidableEq

/-- The attempt loop of `execute_command_streaming` (`src/codex.rs`,
lines 648-701).  `attempts` scripts what each spawned attempt returns
(`Except.error` for a spawn or I/O failure, which the `?` operator
propagates).  The script must supply one entry per attempt actually made;
running off its end is reported as an error, which the theorems below show
never happens with two entries. -/
def execute_command_streaming_loop (backend : BackendKind) (madmax : Bool)
    (working_dir : String) :
    List (Except String StreamingAttemptState) → Option String → Bool →
    Except String RunSummary
  | [], _, _ => Except.error "attempt script exhausted"
  | attempt :: rest, attempt_session_id, retried_without_resume =>
    match backend_args backend madmax attempt_session_id working_dir with
    | .error e => Except.error e
    | .ok _ =>
      match attempt with
      | .error e => Except.error e
      | .ok .cancelled =>
          Except.ok ⟨[attempt_session_id], [], true⟩
      | .ok (.completed outcome) =>
          if retry_condition outcome attempt_session_id retried_without_resume then
            match execute_command_streaming_loop backend madmax working_dir
                rest none true with
            | .error e => Except.error e
            | .ok summary =>
                Except.ok { summary with
                  attempt_session_ids := attempt_session_id :: summary.attempt_session_ids }
          else
            let error_events :=
              if !outcome.status_success then
                [StreamMessage.error
                  (if str_trim outcome.stderr_output ≠ "" then str_trim outcome.stderr_output
                   else ai_binary_name backend ++ " exited with code " ++
                     debug_option_int outcome.status_code)]
              else []
            let done_events :=
              if !outcome.done_sent then
                [StreamMessage.done "" outcome.last_session_id]
              else []
            Except.ok ⟨[attempt_session_id], error_events ++ done_events, false⟩

/-- `HistoryType` from `src/session.rs`. -/
inductive HistoryType where
  | user
  | assistant
  | error
  | system
  | tool_use
  | tool_result
deriving DecidableEq

/-- `HistoryItem` from `src/session.rs`. -/
structure HistoryItem where
  item_type : HistoryType
  content : String
deriving DecidableEq

/-- `MAX_HISTORY_ITEMS` from `src/session.rs`. -/
def max_history_items : Nat := 100

/-- `enforce_history_cap` from `src/session.rs` (lines 88-93): drain the
oldest entries so at most `MAX_HISTORY_ITEMS` remain. -/
def enforce_history_cap (history : List HistoryItem) : List HistoryItem :=
  if history.length > max_history_items then
    history.drop (history.length - max_history_items)
  else
    history

/-- `ChatSession` from `src/telegram/bot.rs`. -/
structure ChatSession where
  session_id : Option String
  current_path : Option String
  history : List HistoryItem
  pending_uploads : List String
  cleared : Bool
deriving DecidableEq

/-- The session mutation of `handle_clear_command`
(`src/telegram/commands.rs`, lines 624-630). -/
def clear_session (s : ChatSession) : ChatSession :=
  { s with session_id := none, history := [], pending_uploads := [], cleared := true }

/-- The history-append critical section that finalizes a turn
(`src/telegram/message.rs`, lines 403-423 for the cancelled path and
lines 506-528 for the completion path; both blocks perform the same session
mutation, differing only in the recorded assistant text, which is passed
here as `response`).  Returns the updated session and whether
`save_session_to_file` was called. -/
def finalize_turn (s : ChatSession) (new_session_id : Option String)
    (user_text response : String) : ChatSession × Bool :=
  if s.cleared then
    (s, false)
  else
    ({ s with
        session_id :=
          match new_session_id with
          | some sid => some sid
          | none => s.session_id,
        history := enforce_history_cap (s.history ++
          [⟨HistoryType.user, user_text⟩, ⟨HistoryType.assistant, response⟩]) },
     true)

/-- The history-append site of `handle_file_upload`
(`src/telegram/file_ops.rs`, lines 185-195): record the upload notice in
history (capped) and queue it as a pending upload. -/
def record_upload (s : ChatSession) (upload_record : String) : ChatSession :=
  { s with
      history := enforce_history_cap (s.history ++ [⟨HistoryType.user, upload_record⟩]),
      pending_uploads := s.pending_uploads ++ [upload_record] }

/-- Chat identifiers (Telegram `ChatId`). -/
abbrev ChatId := Int

/-- Reply of the message router to a new agent-turn request. -/
inductive TurnReply where
  | busy
  | admitted
deriving DecidableEq

/-- `HashMap::insert` on the key set of `cancel_tokens`: at most one token
per chat, so inserting for an already-present chat replaces it. -/
def insert_token (registry : List ChatId) (chat_id : ChatId) : List ChatId :=
  if chat_id ∈ registry then registry else chat_id :: registry

/-- `HashMap::remove` on the key set of `cancel_tokens`. -/
def remove_token (registry : List ChatId) (chat_id : ChatId) : List ChatId :=
  registry.filter (fun c => c ≠ chat_id)

/-- Admission control for an agent-turn request: the busy gate of
`handle_message` (`src/telegram/commands.rs`, lines 299-308, and the
identical gate on the upload-caption path, lines 196-206) followed, on
admission, by the token registration of `handle_text_message`
(`src/telegram/message.rs`, lines 127-131). -/
def request_agent_turn (registry : List ChatId) (chat_id : ChatId) :
    TurnReply × List ChatId :=
  if chat_id ∈ registry then
    (TurnReply.busy, registry)
  else
    (TurnReply.admitted, insert_token registry chat_id)

/-- Events that touch the cancel-token registry. -/
inductive BotEvent where
  | agent_turn (chat_id : ChatId)
  | poll_finish (chat_id : ChatId)
  | clear (chat_id : ChatId)
  | stop (chat_id : ChatId)

/-- Effect of each event on the registry: an agent-turn request goes
through admission control; the polling loop removes the token when it
finishes (`src/telegram/message.rs`, line 303); `/clear` removes it
(`src/telegram/commands.rs`, line 631); `/stop` only sets the flag inside
the token and leaves the registry unchanged (`src/telegram/commands.rs`,
lines 757-831). -/
def registry_step (registry : List ChatId) : BotEvent → List ChatId
  | .agent_turn chat_id => (request_agent_turn registry chat_id).2
  | .poll_finish chat_id => remove_token registry chat_id
  | .clear chat_id => remove_token registry chat_id
  | .stop _ => registry

/-- Run a sequence of registry events from the empty startup registry. -/
def run_registry (events : List BotEvent) : List ChatId :=
  events.foldl registry_step []

/-- `min_gap` of `shared_rate_limit_wait` (`src/telegram/streaming.rs`,
line 24), in milliseconds. -/
def min_gap : Nat := 3000

/-- The reserved instant computed under the lock by `shared_rate_limit_wait`
(`src/telegram/streaming.rs`, lines 25-39).  `now0` is the instant taken by
the `or_insert_with` default closure (ten seconds are subtracted from it,
saturating at the time origin) and `now` the instant taken just after;
times are in milliseconds. -/
def reserve_target (last : Option Nat) (now0 now : Nat) : Nat :=
  let lastv := last.getD (now0 - 10000)
  let earliest_next := lastv + min_gap
  if earliest_next > now then earliest_next else now

/-- One `shared_rate_limit_wait` critical section: compute the target and
store it back as the chat entry of `api_timestamps`. -/
def rate_limit_step (timestamps : ChatId → Option Nat) (chat_id : ChatId)
    (now0 now : Nat) : Nat × (ChatId → Option Nat) :=
  (reserve_target (timestamps chat_id) now0 now,
   fun c =>
     if c = chat_id then some (reserve_target (timestamps chat_id) now0 now)
     else timestamps c)

/-- Run a sequence of rate-limiter calls `(chat_id, now0, now)` (the lock
serializes them, so any concurrent execution is some such sequence),
returning the reserved instant of each call in order. -/
def run_rate_limiter : (ChatId → Option Nat) → List (ChatId × Nat × Nat) →
    List (ChatId × Nat)
  | _, [] => []
  | timestamps, (chat_id, now0, now) :: rest =>
      let (target, timestamps2) := rate_limit_step timestamps chat_id now0 now
      (chat_id, target) :: run_rate_limiter timestamps2 rest

/-- The reserved instants of one chat, in reservation order. -/
def reservations_for (chat_id : ChatId) (log : List (ChatId × Nat)) : List Nat :=
  (log.filter (fun e => e.1 == chat_id)).map (fun e => e.2)

/-- `dangerous_patterns` from `sanitize_user_input` (`src/session.rs`,
lines 40-54). -/
def dangerous_patterns : List String :=
  ["ignore previous instructions",
   "ignore all previous",
   "disregard previous",
   "forget previous",
   "system prompt",
   "you are now",
   "act as if",
   "pretend you are",
   "new instructions:",
   "[system]",
   "[admin]",
   "---begin",
   "---end"]

/-- UTF-8 encoded width of one character, in bytes. -/
def utf8_width (c : Char) : Nat :=
  if c.toNat < 0x80 then 1
  else if c.toNat < 0x800 then 2
  else if c.toNat < 0x10000 then 3
  else 4

/-- Byte length of a character list under UTF-8 (Rust `String::len`). -/
def utf8_len (s : List Char) : Nat :=
  (s.map utf8_width).sum

/-- Rust `String::truncate(new_len)`: keep the characters that fit in the
first `new_len` bytes.  Returns `none` when `new_len` falls strictly inside
the encoding of a character, in which case `String::truncate` panics
(new_len not on a char boundary); a `new_len` at or past the end is a
no-op. -/
def truncate_bytes : List Char → Nat → Option (List Char)
  | _, 0 => some []
  | [], _ + 1 => some []
  | c :: rest, n + 1 =>
      if utf8_width c ≤ n + 1 then
        (truncate_bytes rest (n + 1 - utf8_width c)).map (fun t => c :: t)
      else
        none

/-- The inner rebuild loop of `sanitize_user_input` (`src/session.rs`,
lines 59-75) for one pattern: scan the lowercased text left to right and
replace each occurrence of the (already lowercase) pattern with
`[filtered]`, resuming the scan after the occurrence.  The source searches
byte offsets in the lowered copy and splices the original at the same
offsets; per-character lowering keeps the two strings aligned, so the
character-level scan below performs the same replacement.  The pattern is
required nonempty (every entry of `dangerous_patterns` is), which also
makes the scan terminate. -/
def filter_pattern (pat : List Char) : List Char → List Char × Bool
  | [] => ([], false)
  | c :: rest =>
      if h : pat ≠ [] ∧ List.isPrefixOf pat ((c :: rest).map Char.toLower) then
        ("[filtered]".data ++ (filter_pattern pat ((c :: rest).drop pat.length)).1,
         true)
      else
        let r := filter_pattern pat rest
        (c :: r.1, r.2)
termination_by s => s.length
decreasing_by
  · have hp : 0 < pat.length := by
      cases pat with
      | nil => exact absurd rfl h.1
      | cons _ _ => simp
    simp only [List.length_drop, List.length_cons]
    omega
  · simp

/-- One `for pattern in dangerous_patterns` step of `sanitize_user_input`. -/
def sanitize_step (acc : List Char × Bool) (pattern : String) : List Char × Bool :=
  match filter_pattern pattern.data acc.1 with
  | (result, found) => (result, acc.2 || found)

/-- `MAX_INPUT_LENGTH` from `src/session.rs` (line 77), in bytes. -/
def max_input_length : Nat := 16000

/-- `sanitize_user_input` from `src/session.rs` (lines 39-84), at the byte
level: replace every dangerous pattern, then truncate to
`MAX_INPUT_LENGTH` bytes and append a marker when too long.  Returns
`none` exactly when the Rust function panics, namely when
`String::truncate` is applied at a byte offset that is not a character
boundary. -/
def sanitize_user_input (input : List Char) : Option (List Char × Bool) :=
  match dangerous_patterns.foldl sanitize_step (input, false) with
  | (sanitized, was_filtered) =>
    if utf8_len sanitized > max_input_length then
      match truncate_bytes sanitized max_input_length with
      | none => none
      | some t => some (t ++ "... [truncated]".data, was_filtered)
    else
      some (sanitized, was_filtered)

/-- The concrete input on which `sanitize_user_input` panics: 15999 one-byte
characters followed by one two-byte character, so that byte offset 16000
falls strictly inside the final character. -/
def c9_failing_input : List Char := List.replicate 15999 'a' ++ ['é']

/-- One sequentially numbered history item, for the concrete 105-item case of C3. -/
def c3_item (i : Nat) : HistoryItem := ⟨HistoryType.user, toString i⟩

/-- The `result_text` subexpression of the `result` arm of `parse_codex_stream_line`. -/
def result_text (json : Json) : String :=
  ((json.getKey "result").bind Json.as_str).getD ""

/-- The `session_id` subexpression of the `result` arm of `parse_codex_stream_line`. -/
def result_session_id (json : Json) : Option String :=
  (json.getKey "session_id").bind Json.as_str

/-- The `errors` subexpression of the `result` arm of `parse_codex_stream_line`: the string entries of the `errors` array joined by newlines, defaulting to the empty string. -/
def joined_errors (json : Json) : String :=
  (((json.getKey "errors").bind Json.as_array).map
    (fun arr => join_newline (arr.filterMap Json.as_str))).getD ""

/-- The error message computed by the `result` arm of `parse_codex_stream_line` when `is_error` is set (`src/codex.rs`, lines 787-807). -/
def result_error_message (json : Json) : String :=
  if joined_errors json ≠ "" then joined_errors json
  else if str_trim (result_text json) ≠ "" then result_text json
  else "OMX execution failed"

/-- The fallback message in the wording of claim C1: the result text if nonempty, else a generic message. -/
def claimed_fallback (json : Json) : String :=
  if result_text json ≠ "" then result_text json else "OMX execution failed"

/-- The error message as claim C1 words it: the errors array joined by newlines, falling back only when that array is empty or absent.  Compare `result_error_message`, which is what the source computes. -/
def claimed_error_message (json : Json) : String :=
  match (json.getKey "errors").bind Json.as_array with
  | some [] => claimed_fallback json
  | some (e :: rest) => join_newline ((e :: rest).filterMap Json.as_str)
  | none => claimed_fallback json

/-- A `result` line whose `errors` array is present and nonempty but joins to the empty string. -/
def c1_cex_json : Json :=
  Json.obj [("type", Json.str "result"), ("is_error", Json.bool true),
            ("errors", Json.arr [Json.str ""]), ("result", Json.str "res"),
            ("session_id", Json.str "sess-9")]

/-- A `result` line with a nonempty `errors` array and an empty result text. -/
def c1_wit_json : Json :=
  Json.obj [("type", Json.str "result"), ("is_error", Json.bool true),
            ("errors", Json.arr [Json.str "boom"]), ("result", Json.str ""),
            ("session_id", Json.str "sess-2")]

/-- The placement property asserted by C10, read literally: every occurrence of the session id string in the argument list sits immediately after the literal `resume`. -/
def id_only_after_resume (args : List String) (session_id : String) : Prop :=
  ∀ i : Nat, args[i]? = some session_id →
    1 ≤ i ∧ args[i - 1]? = some "resume"

/-- The events synthesized by the orchestrator after a final completed
attempt (the two trailing sends of `execute_command_streaming`,
`src/codex.rs` lines 684-698). -/
def synthesized_events (backend : BackendKind) (outcome : StreamingAttemptOutcome) :
    List StreamMessage :=
  (if !outcome.status_success then
    [StreamMessage.error
      (if str_trim outcome.stderr_output ≠ "" then str_trim outcome.stderr_output
       else ai_binary_name backend ++ " exited with code " ++
         debug_option_int outcome.status_code)]
  else []) ++
  (if !outcome.done_sent then
    [StreamMessage.done "" outcome.last_session_id]
  else [])

lemma isPrefixOf_mem {pat l : List Char} (h : List.isPrefixOf pat l = true)
    {d : Char} (hd : d ∈ pat) : d ∈ l := by
  rw [List.isPrefixOf_iff_prefix] at h
  exact h.subset hd

lemma filter_pattern_no_match (pat : List Char) (d : Char) (hd : d ∈ pat) :
    ∀ s : List Char, d ∉ s.map Char.toLower → filter_pattern pat s = (s, false) := by
  intro s
  induction s with
  | nil => intro _; rw [filter_pattern]
  | cons c rest ih =>
    intro hns
    have hcond : ¬ (pat ≠ [] ∧ List.isPrefixOf pat ((c :: rest).map Char.toLower) = true) := by
      rintro ⟨-, hpre⟩
      exact hns (isPrefixOf_mem hpre hd)
    have hrest : d ∉ rest.map Char.toLower := by
      intro hmem
      exact hns (by simp [List.map_cons]; right; simpa using hmem)
    rw [filter_pattern, dif_neg hcond, ih hrest]

lemma sanitize_foldl_no_match (s : List Char)
    (hp : ∀ p ∈ dangerous_patterns, ∃ d ∈ p.data, d ∉ s.map Char.toLower) :
    ∀ (ps : List String) (b : Bool),
      (∀ p ∈ ps, p ∈ dangerous_patterns) → ps.foldl sanitize_step (s, b) = (s, b) := by
  intro ps
  induction ps with
  | nil => intro b _; rfl
  | cons p rest ih =>
    intro b hsub
    obtain ⟨d, hd, hns⟩ := hp p (hsub p (by simp))
    have hstep : sanitize_step (s, b) p = (s, b) := by
      simp [sanitize_step, filter_pattern_no_match p.data d hd s hns]
    rw [List.foldl_cons, hstep]
    exact ih b (fun q hq => hsub q (by simp [hq]))

lemma c9_input_chars_map : c9_failing_input.map Char.toLower = c9_failing_input := by
  have h1 : Char.toLower 'a' = 'a' := by decide
  have h2 : Char.toLower 'é' = 'é' := by decide
  unfold c9_failing_input
  rw [List.map_append, List.map_replicate, h1, List.map_cons, List.map_nil, h2]

lemma c9_input_chars_mem : ∀ x ∈ c9_failing_input, x = 'a' ∨ x = 'é' := by
  intro x hx
  unfold c9_failing_input at hx
  rcases List.mem_append.mp hx with h | h
  · exact Or.inl (List.eq_of_mem_replicate h)
  · exact Or.inr (by simpa using h)

lemma c9_no_pattern_match :
    ∀ p ∈ dangerous_patterns, ∃ d ∈ p.data, d ∉ c9_failing_input.map Char.toLower := by
  have hforeign : ∀ p ∈ dangerous_patterns, ∃ d ∈ p.data, d ≠ 'a' ∧ d ≠ 'é' := by decide
  intro p hp
  obtain ⟨d, hd, hda, hde⟩ := hforeign p hp
  refine ⟨d, hd, fun hmem => ?_⟩
  rw [c9_input_chars_map] at hmem
  rcases c9_input_chars_mem d hmem with h | h
  · exact hda h
  · exact hde h

lemma utf8_len_append (a b : List Char) : utf8_len (a ++ b) = utf8_len a + utf8_len b := by
  simp [utf8_len]

lemma utf8_len_replicate (n : Nat) (c : Char) :
    utf8_len (List.replicate n c) = n * utf8_width c := by
  simp [utf8_len, List.map_replicate, List.sum_replicate, smul_eq_mul]

lemma truncate_bytes_replicate_one (c : Char) (hc : utf8_width c = 1) :
    ∀ (n m : Nat) (rest : List Char), n ≤ m →
      truncate_bytes (List.replicate n c ++ rest) m =
        (truncate_bytes rest (m - n)).map (fun t => List.replicate n c ++ t) := by
  intro n
  induction n with
  | zero =>
    intro m rest _
    simp [Option.map_id]
  | succ k ih =>
    intro m rest hm
    obtain ⟨m2, rfl⟩ : ∃ m2, m = m2 + 1 := ⟨m - 1, by omega⟩
    rw [List.replicate_succ, List.cons_append]
    rw [truncate_bytes]
    rw [if_pos (by omega)]
    rw [hc]
    simp only [Nat.add_sub_cancel]
    rw [ih m2 rest (by omega)]
    have heq : m2 - k = m2 + 1 - (k + 1) := by omega
    rw [← heq, Option.map_map]
    rfl

lemma sanitize_user_input_panic_eq (input s : List Char) (b : Bool)
    (hfold : dangerous_patterns.foldl sanitize_step (input, false) = (s, b))
    (hlen : utf8_len s > max_input_length)
    (htr : truncate_bytes s max_input_length = none) :
    sanitize_user_input input = none := by
  unfold sanitize_user_input
  rw [hfold]
  show (if utf8_len s > max_input_length then
      match truncate_bytes s max_input_length with
      | none => none
      | some t => some (t ++ "... [truncated]".data, b)
    else some (s, b)) = none
  rw [if_pos hlen, htr]

/-- C9: `sanitize_user_input` is not total.  On the 16001-byte input of
15999 letters `a` followed by one `é`, no dangerous pattern matches, the
sanitized text exceeds the 16000-byte limit, and byte offset 16000 is not a
character boundary, so `String::truncate` panics.  The model returns `none`
exactly on the panicking executions. -/
theorem c9_panics : sanitize_user_input c9_failing_input = none := by
  have hfold := sanitize_foldl_no_match c9_failing_input c9_no_pattern_match
    dangerous_patterns false (fun p hp => hp)
  have hlen : utf8_len c9_failing_input = 16001 := by
    have hwa : utf8_width 'a' = 1 := by decide
    have hwe : utf8_len ['é'] = 2 := by decide
    unfold c9_failing_input
    rw [utf8_len_append, utf8_len_replicate, hwa, hwe]
  have htrunc : truncate_bytes c9_failing_input max_input_length = none := by
    have hwa : utf8_width 'a' = 1 := by decide
    unfold c9_failing_input
    rw [truncate_bytes_replicate_one 'a' hwa 15999 max_input_length ['é'] (by decide)]
    have hsub : max_input_length - 15999 = 1 := by decide
    rw [hsub]
    decide
  exact sanitize_user_input_panic_eq c9_failing_input c9_failing_input false hfold
    (by rw [hlen]; decide) htrunc

/-- C3: after `enforce_history_cap`, the history holds at most 100 entries
and is a suffix of the input (only the oldest entries removed, relative
order preserved); on 105 sequentially numbered items exactly items 5..104
survive in order; and both history-append sites (turn finalization and the
upload record) apply the cap, so their results never exceed 100 entries. -/
theorem c3_history_cap :
    (∀ history : List HistoryItem,
        (enforce_history_cap history).length ≤ max_history_items ∧
        (enforce_history_cap history) <:+ history) ∧
    enforce_history_cap ((List.range 105).map c3_item) =
      ((List.range 105).drop 5).map c3_item ∧
    (∀ (session_id current_path : Option String) (history : List HistoryItem)
        (pending : List String) (new_session_id : Option String)
        (user_text response : String),
        (finalize_turn ⟨session_id, current_path, history, pending, false⟩
            new_session_id user_text response).1.history =
          enforce_history_cap (history ++
            [⟨HistoryType.user, user_text⟩, ⟨HistoryType.assistant, response⟩]) ∧
        ((finalize_turn ⟨session_id, current_path, history, pending, false⟩
            new_session_id user_text response).1.history).length ≤ max_history_items) ∧
    (∀ (s : ChatSession) (upload_record : String),
        (record_upload s upload_record).history =
          enforce_history_cap (s.history ++ [⟨HistoryType.user, upload_record⟩]) ∧
        ((record_upload s upload_record).history).length ≤ max_history_items) := by
  have hlen : ∀ history : List HistoryItem,
      (enforce_history_cap history).length ≤ max_history_items := by
    intro history
    unfold enforce_history_cap
    split
    · simp only [List.length_drop]
      omega
    · omega
  refine ⟨fun history => ⟨hlen history, ?_⟩, ?_, ?_, ?_⟩
  · unfold enforce_history_cap
    split
    · exact List.drop_suffix _ _
    · exact List.suffix_refl _
  · unfold enforce_history_cap
    rw [if_pos (by simp [max_history_items])]
    simp [max_history_items, List.map_drop]
  · intro session_id current_path history pending new_session_id user_text response
    refine ⟨rfl, ?_⟩
    exact hlen _
  · intro s upload_record
    exact ⟨rfl, hlen _⟩

/-- C6: a turn that finalizes, on the completion path or the cancelled path
alike, against a session whose `cleared` flag is set appends no history and
does not persist the session; `/clear` itself empties history and pending
uploads, drops the backend session id, and sets the flag. -/
theorem c6_clear_race :
    (∀ s : ChatSession, s.cleared = true →
        ∀ (new_session_id : Option String) (user_text response : String),
          finalize_turn s new_session_id user_text response = (s, false)) ∧
    (∀ s : ChatSession,
        (clear_session s).cleared = true ∧
        (clear_session s).history = [] ∧
        (clear_session s).pending_uploads = [] ∧
        (clear_session s).session_id = none ∧
        ∀ (new_session_id : Option String) (user_text response : String),
          finalize_turn (clear_session s) new_session_id user_text response =
            (clear_session s, false)) := by
  have hfin : ∀ s : ChatSession, s.cleared = true →
      ∀ (new_session_id : Option String) (user_text response : String),
        finalize_turn s new_session_id user_text response = (s, false) := by
    intro s hs new_session_id user_text response
    unfold finalize_turn
    rw [if_pos hs]
  refine ⟨hfin, fun s => ⟨rfl, rfl, rfl, rfl, hfin _ rfl⟩⟩

/-- Witness for C6 at a concrete session. -/
theorem c6_witness :
    (clear_session ⟨some "sid-1", some "/tmp", [⟨HistoryType.user, "hi"⟩], ["up"], false⟩).cleared = true ∧
    finalize_turn (clear_session ⟨some "sid-1", some "/tmp", [⟨HistoryType.user, "hi"⟩], ["up"], false⟩)
        (some "sid-2") "u" "a" =
      (clear_session ⟨some "sid-1", some "/tmp", [⟨HistoryType.user, "hi"⟩], ["up"], false⟩, false) :=
  ⟨rfl, c6_clear_race.1 _ rfl (some "sid-2") "u" "a"⟩

/-- C7: every chat holds at most one registered cancel token in any
reachable registry (the registry stays duplicate-free); a request for a
busy chat is answered `busy` and changes nothing; a request for an idle
chat is admitted and registers the token; the polling loop deregisters it;
and the only event that can register a token for a chat is an admitted
agent-turn request for that chat. -/
theorem c7_admission_control :
    (∀ events : List BotEvent, (run_registry events).Nodup) ∧
    (∀ (registry : List ChatId) (chat_id : ChatId),
        chat_id ∈ registry →
          request_agent_turn registry chat_id = (TurnReply.busy, registry)) ∧
    (∀ (registry : List ChatId) (chat_id : ChatId),
        chat_id ∉ registry →
          (request_agent_turn registry chat_id).1 = TurnReply.admitted ∧
          chat_id ∈ (request_agent_turn registry chat_id).2) ∧
    (∀ (registry : List ChatId) (chat_id : ChatId),
        chat_id ∉ remove_token registry chat_id) ∧
    (∀ (registry : List ChatId) (chat_id : ChatId) (e : BotEvent),
        chat_id ∉ registry → chat_id ∈ registry_step registry e →
          e = BotEvent.agent_turn chat_id) := by
  refine ⟨?_, ?_, ?_, ?_, ?_⟩
  · intro events
    have general : ∀ (evs : List BotEvent) (registry : List ChatId),
        registry.Nodup → (evs.foldl registry_step registry).Nodup := by
      intro evs
      induction evs with
      | nil => intro registry h; exact h
      | cons e rest ih =>
        intro registry h
        refine ih _ ?_
        cases e with
        | agent_turn c =>
          by_cases hc : c ∈ registry
          · simpa [registry_step, request_agent_turn, insert_token, hc] using h
          · simp only [registry_step, request_agent_turn, insert_token, if_neg hc]
            exact h.cons hc
        | poll_finish c =>
          simp only [registry_step, remove_token]
          exact h.filter _
        | clear c =>
          simp only [registry_step, remove_token]
          exact h.filter _
        | stop c => exact h
    exact general events [] List.nodup_nil
  · intro registry chat_id hmem
    unfold request_agent_turn
    rw [if_pos hmem]
  · intro registry chat_id hmem
    unfold request_agent_turn insert_token
    rw [if_neg hmem, if_neg hmem]
    exact ⟨rfl, by simp⟩
  · intro registry chat_id
    unfold remove_token
    intro hmem
    rw [List.mem_filter] at hmem
    simp at hmem
  · intro registry chat_id e hnot hmem
    cases e with
    | agent_turn c =>
      by_cases hc : c ∈ registry
      · simp only [registry_step, request_agent_turn, if_pos hc] at hmem
        exact absurd hmem hnot
      · simp only [registry_step, request_agent_turn, insert_token, if_neg hc] at hmem
        rcases List.mem_cons.mp hmem with h | h
        · rw [h]
        · exact absurd h hnot
    | poll_finish c =>
      simp only [registry_step, remove_token, List.mem_filter] at hmem
      exact absurd hmem.1 hnot
    | clear c =>
      simp only [registry_step, remove_token, List.mem_filter] at hmem
      exact absurd hmem.1 hnot
    | stop c => exact absurd hmem hnot

/-- Witness for C7 at concrete registries. -/
theorem c7_witness :
    request_agent_turn [(5 : ChatId)] 5 = (TurnReply.busy, [5]) ∧
    (request_agent_turn [(5 : ChatId)] 7).1 = TurnReply.admitted :=
  ⟨c7_admission_control.2.1 [5] 5 (by decide),
   (c7_admission_control.2.2.1 [5] 7 (by decide)).1⟩

/-- C8: the stale-resume heuristic accepts any stderr text containing
`thread not found` case-insensitively, rejects the concrete text
`network timeout while contacting API`, and in general returns true exactly
when the lowercased text contains one of the fixed known phrases, or a
resume-context marker together with a missing-or-invalid hint. -/
theorem c8_stale_resume_heuristic :
    (∀ s : String, str_contains (to_lowercase s) "thread not found" = true →
        is_retryable_resume_error s = true) ∧
    is_retryable_resume_error "network timeout while contacting API" = false ∧
    (∀ s : String,
        is_retryable_resume_error s =
          (known_resume_error_patterns.any
              (fun pattern => str_contains (to_lowercase s) pattern) ||
            ((str_contains (to_lowercase s) "--resume" ||
              str_contains (to_lowercase s) "resume ") &&
             (str_contains (to_lowercase s) "not found" ||
              str_contains (to_lowercase s) "does not exist" ||
              str_contains (to_lowercase s) "unknown" ||
              str_contains (to_lowercase s) "no such" ||
              str_contains (to_lowercase s) "expired" ||
              str_contains (to_lowercase s) "invalid")))) := by
  have hshape : ∀ s : String,
      is_retryable_resume_error s =
        (known_resume_error_patterns.any
            (fun pattern => str_contains (to_lowercase s) pattern) ||
          ((str_contains (to_lowercase s) "--resume" ||
            str_contains (to_lowercase s) "resume ") &&
           (str_contains (to_lowercase s) "not found" ||
            str_contains (to_lowercase s) "does not exist" ||
            str_contains (to_lowercase s) "unknown" ||
            str_contains (to_lowercase s) "no such" ||
            str_contains (to_lowercase s) "expired" ||
            str_contains (to_lowercase s) "invalid"))) := by
    intro s
    unfold is_retryable_resume_error
    cases hany : known_resume_error_patterns.any
        (fun pattern => str_contains (to_lowercase s) pattern) with
    | false => rw [if_neg (by simp [hany])]; simp
    | true => rw [if_pos (by simp [hany])]; simp
  refine ⟨?_, by decide, hshape⟩
  intro s hs
  rw [hshape]
  have : known_resume_error_patterns.any
      (fun pattern => str_contains (to_lowercase s) pattern) = true := by
    rw [List.any_eq_true]
    exact ⟨"thread not found", by decide, hs⟩
  rw [this]
  rfl

/-- Witness for C8 on a concrete mixed-case stderr text. -/
theorem c8_witness :
    str_contains (to_lowercase "Thread NOT found for resume id abc") "thread not found" = true ∧
    is_retryable_resume_error "Thread NOT found for resume id abc" = true :=
  ⟨by decide, c8_stale_resume_heuristic.1 _ (by decide)⟩

lemma reserve_target_ge (t now0 now : Nat) :
    t + min_gap ≤ reserve_target (some t) now0 now := by
  unfold reserve_target
  simp only [Option.getD_some]
  split
  · exact Nat.le_refl _
  · omega

lemma run_rate_limiter_chain (R : Nat → Nat → Prop)
    (hR : ∀ t now0 now, R t (reserve_target (some t) now0 now)) :
    ∀ (calls : List (ChatId × Nat × Nat)) (timestamps : ChatId → Option Nat)
      (chat_id : ChatId),
      List.Chain' R (reservations_for chat_id (run_rate_limiter timestamps calls)) ∧
      (∀ y, (reservations_for chat_id (run_rate_limiter timestamps calls)).head? = some y →
        ∀ t, timestamps chat_id = some t → R t y) := by
  intro calls
  induction calls with
  | nil =>
    intro timestamps chat_id
    exact ⟨List.chain'_nil, by intro y hy; simp [run_rate_limiter, reservations_for] at hy⟩
  | cons call rest ih =>
    intro timestamps chat_id
    obtain ⟨c, now0, now⟩ := call
    have hrun : run_rate_limiter timestamps ((c, now0, now) :: rest) =
        (c, reserve_target (timestamps c) now0 now) ::
          run_rate_limiter (fun x =>
            if x = c then some (reserve_target (timestamps c) now0 now)
            else timestamps x) rest := rfl
    by_cases hc : c = chat_id
    · subst hc
      have hres : reservations_for c (run_rate_limiter timestamps ((c, now0, now) :: rest)) =
          reserve_target (timestamps c) now0 now ::
            reservations_for c (run_rate_limiter (fun x =>
              if x = c then some (reserve_target (timestamps c) now0 now)
              else timestamps x) rest) := by
        rw [hrun]
        simp [reservations_for]
      set ts2 : ChatId → Option Nat := fun x =>
        if x = c then some (reserve_target (timestamps c) now0 now) else timestamps x with hts2
      have hts2c : ts2 c = some (reserve_target (timestamps c) now0 now) := by simp [hts2]
      obtain ⟨ihchain, ihhead⟩ := ih ts2 c
      rw [hres]
      constructor
      · rw [List.chain'_cons']
        refine ⟨?_, ihchain⟩
        intro b hb
        have hhead : (reservations_for c (run_rate_limiter ts2 rest)).head? = some b := by
          simpa using hb
        exact ihhead b hhead _ hts2c
      · intro y hy t ht
        have : y = reserve_target (timestamps c) now0 now := by
          simp at hy
          exact hy.symm
        rw [this, ht]
        exact hR t now0 now
    · have hres : reservations_for chat_id (run_rate_limiter timestamps ((c, now0, now) :: rest)) =
          reservations_for chat_id (run_rate_limiter (fun x =>
            if x = c then some (reserve_target (timestamps c) now0 now)
            else timestamps x) rest) := by
        rw [hrun]
        simp [reservations_for, hc]
      set ts2 : ChatId → Option Nat := fun x =>
        if x = c then some (reserve_target (timestamps c) now0 now) else timestamps x with hts2
      have hts2id : ts2 chat_id = timestamps chat_id := by
        simp [hts2]
        intro h
        exact absurd h.symm hc
      obtain ⟨ihchain, ihhead⟩ := ih ts2 chat_id
      rw [hres]
      exact ⟨ihchain, fun y hy t ht => ihhead y hy t (by rw [hts2id]; exact ht)⟩

/-- C5: over any serialized sequence of rate-limiter calls starting from
the empty timestamp map, the reserved instants of each chat are strictly
increasing, every consecutive pair at least `min_gap` (3000 ms) apart,
because each reservation is `max(now, lastReserved + minGap)` stored back
under the lock. -/
theorem c5_rate_limiter_monotonic :
    ∀ (calls : List (ChatId × Nat × Nat)) (chat_id : ChatId),
      List.Chain' (fun a b => a + min_gap ≤ b ∧ a < b)
        (reservations_for chat_id (run_rate_limiter (fun _ => none) calls)) := by
  intro calls chat_id
  have hR : ∀ t now0 now, (fun a b => a + min_gap ≤ b ∧ a < b) t
      (reserve_target (some t) now0 now) := by
    intro t now0 now
    have hge := reserve_target_ge t now0 now
    have hgap : 0 < min_gap := by decide
    exact ⟨hge, by omega⟩
  exact (run_rate_limiter_chain _ hR calls (fun _ => none) chat_id).1

/-- Counterexample to C1 as stated: on a `result` line with
`errors:[""]` (present and nonempty, so the claim prescribes the joined
message, here empty), the code instead falls back to the result text. -/
theorem c1_counterexample :
    claimed_error_message c1_cex_json = "" ∧
    parse_codex_stream_line c1_cex_json =
      [StreamMessage.error "res", StreamMessage.done "res" (some "sess-9")] ∧
    parse_codex_stream_line c1_cex_json ≠
      [StreamMessage.error (claimed_error_message c1_cex_json),
       StreamMessage.done "res" (some "sess-9")] :=
  ⟨by decide, by decide, by decide⟩

/-- C1 (amended): every parsed `result` line with `is_error:true` yields
exactly two events in order: an `Error` whose message is the errors array
joined by newlines when that joined string is nonempty, else the result
text when nonblank, else a generic message; then a `Done` carrying the
result text and the session id of the line. -/
theorem c1_result_error_events :
    ∀ json : Json,
      (json.getKey "type").bind Json.as_str = some "result" →
      ((json.getKey "is_error").bind Json.as_bool).getD false = true →
      parse_codex_stream_line json =
        [StreamMessage.error (result_error_message json),
         StreamMessage.done (result_text json) (result_session_id json)] := by
  intro json hty herr
  unfold parse_codex_stream_line
  rw [hty]
  show (if ((json.getKey "is_error").bind Json.as_bool).getD false then
      [StreamMessage.error (result_error_message json)] else []) ++
      [StreamMessage.done (result_text json) (result_session_id json)] =
    [StreamMessage.error (result_error_message json),
     StreamMessage.done (result_text json) (result_session_id json)]
  rw [if_pos herr]
  rfl

/-- Witness for C1 on the `errors:["boom"]` fixture. -/
theorem c1_witness :
    parse_codex_stream_line c1_wit_json =
      [StreamMessage.error (result_error_message c1_wit_json),
       StreamMessage.done (result_text c1_wit_json) (result_session_id c1_wit_json)] :=
  c1_result_error_events c1_wit_json (by decide) (by decide)

/-- Counterexample to C10 as stated: with the valid session id `exec`, the
id string also occurs as the backend `exec` argument, which does not sit
after the literal `resume`. -/
theorem c10_counterexample :
    codex_args false (some "exec") "/tmp/project" =
      Except.ok ["-C", "/tmp/project", "--sandbox", "danger-full-access", "-a",
        "never", "exec", "resume", "exec", "--json", "-"] ∧
    ¬ id_only_after_resume ["-C", "/tmp/project", "--sandbox",
        "danger-full-access", "-a", "never", "exec", "resume", "exec", "--json",
        "-"] "exec" := by
  refine ⟨rfl, fun h => ?_⟩
  have h6 := h 6 (by decide)
  exact absurd h6.2 (by decide)

/-- C10 (amended): backend argument construction errors exactly when the
supplied resume session id fails validation (empty, over 64 bytes, or with
a character outside `[a-zA-Z0-9_-]`); with a valid id the list places the
id immediately after the literal `resume`; with no id it always succeeds
and contains no `resume` argument unless the working directory string is
itself `resume`. -/
theorem c10_backend_args :
    (∀ (backend : BackendKind) (madmax : Bool) (sid working_dir : String),
        (backend_args backend madmax (some sid) working_dir =
            Except.error "Invalid session ID format" ↔
          is_valid_session_id sid = false) ∧
        (is_valid_session_id sid = false ↔
          (sid = "" ∨ 64 < sid.utf8ByteSize ∨
            ∃ c ∈ sid.data, session_id_char_ok c = false))) ∧
    (∀ (backend : BackendKind) (madmax : Bool) (sid working_dir : String),
        is_valid_session_id sid = true →
          ∃ args, backend_args backend madmax (some sid) working_dir = Except.ok args ∧
            ∃ i : Nat, args[i]? = some "resume" ∧ args[i + 1]? = some sid) ∧
    (∀ (backend : BackendKind) (madmax : Bool) (working_dir : String),
        ∃ args, backend_args backend madmax none working_dir = Except.ok args ∧
          (working_dir ≠ "resume" → "resume" ∉ args)) := by
  refine ⟨?_, ?_, ?_⟩
  · intro backend madmax sid working_dir
    constructor
    · cases hval : is_valid_session_id sid with
      | true =>
        constructor
        · intro hcontra
          cases backend <;> cases madmax <;>
            simp [backend_args, codex_args, omx_args, hval] at hcontra
        · intro h
          exact absurd h (by decide)
      | false =>
        simp only [iff_true]
        cases backend <;> cases madmax <;>
          simp [backend_args, codex_args, omx_args, hval]
    · have hb : (is_valid_session_id sid = false) ↔
          ¬ (is_valid_session_id sid = true) := by
        cases is_valid_session_id sid <;> simp
      rw [hb]
      unfold is_valid_session_id
      simp only [Bool.and_eq_true, decide_eq_true_eq, ne_eq, List.all_eq_true]
      constructor
      · intro h
        by_cases h1 : sid = ""
        · exact Or.inl h1
        · by_cases h2 : sid.utf8ByteSize ≤ 64
          · refine Or.inr (Or.inr ?_)
            by_contra hall
            push_neg at hall
            exact h ⟨⟨by simpa using h1, h2⟩, fun c hc => by
              have := hall c hc
              simp at this
              exact this⟩
          · exact Or.inr (Or.inl (by omega))
      · rintro (h1 | h2 | ⟨c, hc, hfalse⟩) ⟨⟨hne, hle⟩, hall⟩
        · exact (by simpa using hne : ¬ sid = "") h1
        · omega
        · rw [hall c hc] at hfalse
          exact absurd hfalse (by decide)
  · intro backend madmax sid working_dir hval
    cases backend <;> cases madmax
    · refine ⟨["-C", working_dir, "--sandbox", "danger-full-access", "-a", "never",
        "exec", "resume", sid, "--json", "-"], ?_, 7, rfl, rfl⟩
      simp [backend_args, codex_args, hval]
    · refine ⟨["-C", working_dir, "--dangerously-bypass-approvals-and-sandbox",
        "exec", "resume", sid, "--json", "-"], ?_, 4, rfl, rfl⟩
      simp [backend_args, codex_args, hval]
    · refine ⟨["--cd", working_dir, "--sandbox", "danger-full-access", "-a", "never",
        "exec", "resume", sid, "--json", "-"], ?_, 7, rfl, rfl⟩
      simp [backend_args, omx_args, hval]
    · refine ⟨["--cd", working_dir, "--madmax",
        "exec", "resume", sid, "--json", "-"], ?_, 4, rfl, rfl⟩
      simp [backend_args, omx_args, hval]
  · intro backend madmax working_dir
    cases backend <;> cases madmax
    · refine ⟨["-C", working_dir, "--sandbox", "danger-full-access", "-a", "never",
        "exec", "--json", "--skip-git-repo-check", "-"], rfl, fun hwd hmem => ?_⟩
      simp only [List.mem_cons, List.not_mem_nil, or_false] at hmem
      rcases hmem with h|h|h|h|h|h|h|h|h|h <;>
        first
          | exact absurd h (by decide)
          | exact hwd h.symm
    · refine ⟨["-C", working_dir, "--dangerously-bypass-approvals-and-sandbox",
        "exec", "--json", "--skip-git-repo-check", "-"], rfl, fun hwd hmem => ?_⟩
      simp only [List.mem_cons, List.not_mem_nil, or_false] at hmem
      rcases hmem with h|h|h|h|h|h|h <;>
        first
          | exact absurd h (by decide)
          | exact hwd h.symm
    · refine ⟨["--cd", working_dir, "--sandbox", "danger-full-access", "-a", "never",
        "exec", "--json", "--skip-git-repo-check", "-"], rfl, fun hwd hmem => ?_⟩
      simp only [List.mem_cons, List.not_mem_nil, or_false] at hmem
      rcases hmem with h|h|h|h|h|h|h|h|h|h <;>
        first
          | exact absurd h (by decide)
          | exact hwd h.symm
    · refine ⟨["--cd", working_dir, "--madmax",
        "exec", "--json", "--skip-git-repo-check", "-"], rfl, fun hwd hmem => ?_⟩
      simp only [List.mem_cons, List.not_mem_nil, or_false] at hmem
      rcases hmem with h|h|h|h|h|h|h <;>
        first
          | exact absurd h (by decide)
          | exact hwd h.symm

/-- Witness for C10 at a concrete valid session id. -/
theorem c10_witness :
    ∃ args, backend_args BackendKind.codex false (some "abc") "/tmp" = Except.ok args ∧
      ∃ i : Nat, args[i]? = some "resume" ∧ args[i + 1]? = some "abc" :=
  c10_backend_args.2.1 BackendKind.codex false "abc" "/tmp" (by decide)

lemma backend_args_none_ok (backend : BackendKind) (madmax : Bool)
    (working_dir : String) :
    ∃ args, backend_args backend madmax none working_dir = Except.ok args := by
  cases backend <;> cases madmax <;> exact ⟨_, rfl⟩

lemma retry_condition_without_resume (outcome : StreamingAttemptOutcome)
    (retried : Bool) : retry_condition outcome none retried = false := by
  simp [retry_condition, option_is_some]

lemma streaming_loop_completed (backend : BackendKind) (madmax : Bool)
    (working_dir : String) (outcome : StreamingAttemptOutcome)
    (tail : List (Except String StreamingAttemptState))
    (attempt_session_id : Option String) (retried_without_resume : Bool)
    (args : List String)
    (hargs : backend_args backend madmax attempt_session_id working_dir =
      Except.ok args) :
    execute_command_streaming_loop backend madmax working_dir
        (Except.ok (StreamingAttemptState.completed outcome) :: tail)
        attempt_session_id retried_without_resume =
      (if retry_condition outcome attempt_session_id retried_without_resume = true then
        match execute_command_streaming_loop backend madmax working_dir tail none true with
        | .error e => Except.error e
        | .ok summary =>
            Except.ok { summary with
              attempt_session_ids := attempt_session_id :: summary.attempt_session_ids }
      else
        Except.ok ⟨[attempt_session_id], synthesized_events backend outcome, false⟩) := by
  show (match backend_args backend madmax attempt_session_id working_dir with
    | .error e => Except.error e
    | .ok _ =>
      if retry_condition outcome attempt_session_id retried_without_resume = true then
        match execute_command_streaming_loop backend madmax working_dir tail none true with
        | .error e => Except.error e
        | .ok summary =>
            Except.ok { summary with
              attempt_session_ids := attempt_session_id :: summary.attempt_session_ids }
      else
        Except.ok ⟨[attempt_session_id], synthesized_events backend outcome, false⟩ :
      Except String RunSummary) = _
  rw [hargs]

lemma streaming_loop_cancelled (backend : BackendKind) (madmax : Bool)
    (working_dir : String) (tail : List (Except String StreamingAttemptState))
    (attempt_session_id : Option String) (retried_without_resume : Bool)
    (args : List String)
    (hargs : backend_args backend madmax attempt_session_id working_dir =
      Except.ok args) :
    execute_command_streaming_loop backend madmax working_dir
        (Except.ok StreamingAttemptState.cancelled :: tail)
        attempt_session_id retried_without_resume =
      Except.ok ⟨[attempt_session_id], [], true⟩ := by
  show (match backend_args backend madmax attempt_session_id working_dir with
    | .error e => Except.error e
    | .ok _ => Except.ok ⟨[attempt_session_id], [], true⟩ :
      Except String RunSummary) = _
  rw [hargs]

lemma streaming_loop_no_retry (backend : BackendKind) (madmax : Bool)
    (working_dir : String) (second : StreamingAttemptState)
    (rest : List (Except String StreamingAttemptState)) :
    ∃ summary,
      execute_command_streaming_loop backend madmax working_dir
        (Except.ok second :: rest) none true = Except.ok summary ∧
      summary.attempt_session_ids = [none] := by
  obtain ⟨args1, hargs1⟩ := backend_args_none_ok backend madmax working_dir
  cases second with
  | cancelled =>
    exact ⟨⟨[none], [], true⟩,
      streaming_loop_cancelled backend madmax working_dir rest none true args1 hargs1, rfl⟩
  | completed outcome2 =>
    refine ⟨⟨[none], synthesized_events backend outcome2, false⟩, ?_, rfl⟩
    rw [streaming_loop_completed backend madmax working_dir outcome2 rest none true
      args1 hargs1]
    rw [if_neg (by rw [retry_condition_without_resume]; exact Bool.false_ne_true)]

/-- C2: the orchestrator makes a second attempt exactly when the first
completed attempt satisfies the retry guard (non-success, session id
supplied, no prior retry, zero events emitted, retryable stderr); the
second attempt runs with the session id cleared, and no third attempt is
ever made: the run result ignores everything in the script past the second
entry. -/
theorem c2_retry_exactly_once :
    ∀ (backend : BackendKind) (madmax : Bool) (working_dir : String)
      (session_id : Option String) (outcome : StreamingAttemptOutcome)
      (second : StreamingAttemptState)
      (rest : List (Except String StreamingAttemptState)),
      (∃ args, backend_args backend madmax session_id working_dir = Except.ok args) →
      (retry_condition outcome session_id false = true →
        ∃ summary,
          execute_command_streaming_loop backend madmax working_dir
              (Except.ok (StreamingAttemptState.completed outcome) ::
                Except.ok second :: rest) session_id false = Except.ok summary ∧
          summary.attempt_session_ids = [session_id, none]) ∧
      (retry_condition outcome session_id false = false →
        ∃ summary,
          execute_command_streaming_loop backend madmax working_dir
              (Except.ok (StreamingAttemptState.completed outcome) ::
                Except.ok second :: rest) session_id false = Except.ok summary ∧
          summary.attempt_session_ids = [session_id]) ∧
      execute_command_streaming_loop backend madmax working_dir
          (Except.ok (StreamingAttemptState.completed outcome) ::
            Except.ok second :: rest) session_id false =
        execute_command_streaming_loop backend madmax working_dir
          [Except.ok (StreamingAttemptState.completed outcome), Except.ok second]
          session_id false := by
  intro backend madmax working_dir session_id outcome second rest hargs
  obtain ⟨args0, hargs0⟩ := hargs
  refine ⟨?_, ?_, ?_⟩
  · intro hrc
    obtain ⟨summary2, hsum2, hids2⟩ :=
      streaming_loop_no_retry backend madmax working_dir second rest
    refine ⟨{ summary2 with
      attempt_session_ids := session_id :: summary2.attempt_session_ids },
      ?_, by rw [hids2]⟩
    rw [streaming_loop_completed backend madmax working_dir outcome
      (Except.ok second :: rest) session_id false args0 hargs0, if_pos hrc, hsum2]
  · intro hrc
    refine ⟨⟨[session_id], synthesized_events backend outcome, false⟩, ?_, rfl⟩
    rw [streaming_loop_completed backend madmax working_dir outcome
      (Except.ok second :: rest) session_id false args0 hargs0,
      if_neg (by rw [hrc]; exact Bool.false_ne_true)]
  · have hsame : execute_command_streaming_loop backend madmax working_dir
        (Except.ok second :: rest) none true =
      execute_command_streaming_loop backend madmax working_dir
        [Except.ok second] none true := by
      obtain ⟨args1, hargs1⟩ := backend_args_none_ok backend madmax working_dir
      cases second with
      | cancelled =>
        rw [streaming_loop_cancelled backend madmax working_dir rest none true
          args1 hargs1,
          streaming_loop_cancelled backend madmax working_dir [] none true
          args1 hargs1]
      | completed outcome2 =>
        rw [streaming_loop_completed backend madmax working_dir outcome2 rest none true
          args1 hargs1,
          streaming_loop_completed backend madmax working_dir outcome2 [] none true
          args1 hargs1,
          if_neg (by rw [retry_condition_without_resume]; exact Bool.false_ne_true),
          if_neg (by rw [retry_condition_without_resume]; exact Bool.false_ne_true)]
    rw [streaming_loop_completed backend madmax working_dir outcome
      (Except.ok second :: rest) session_id false args0 hargs0,
      streaming_loop_completed backend madmax working_dir outcome
      [Except.ok second] session_id false args0 hargs0, hsame]

/-- Witness for C2: a stale-resume failure followed by a successful fresh
attempt retries exactly once without the session id. -/
theorem c2_witness :
    ∃ summary,
      execute_command_streaming_loop BackendKind.codex false "/tmp"
          [Except.ok (StreamingAttemptState.completed
            ⟨false, none, false, some 1, "session not found", 0⟩),
           Except.ok (StreamingAttemptState.completed
            ⟨true, some "t-1", true, some 0, "", 3⟩)] (some "s1") false =
        Except.ok summary ∧
      summary.attempt_session_ids = [some "s1", none] :=
  (c2_retry_exactly_once BackendKind.codex false "/tmp" (some "s1")
    ⟨false, none, false, some 1, "session not found", 0⟩
    (StreamingAttemptState.completed ⟨true, some "t-1", true, some 0, "", 3⟩) []
    ⟨_, rfl⟩).1 (by decide)

lemma run_attempt_loop_nil (cancel_at : Option Nat) (k : Nat)
    (sid : Option String) (ds : Bool) (cnt : Nat) (ss : Bool) (sc : Option Int)
    (serr : String) :
    run_attempt_loop cancel_at k [] sid ds cnt ss sc serr =
      if cancel_observed cancel_at k then
        ([Effect.kill, Effect.wait_child], StreamingAttemptState.cancelled)
      else if cancel_observed cancel_at (k + 1) then
        ([Effect.kill, Effect.wait_child], StreamingAttemptState.cancelled)
      else ([Effect.wait_child],
        StreamingAttemptState.completed ⟨ds, sid, ss, sc, serr, cnt⟩) := rfl

lemma run_attempt_loop_skip (cancel_at : Option Nat) (k : Nat)
    (rest : List (Option Json)) (sid : Option String) (ds : Bool) (cnt : Nat)
    (ss : Bool) (sc : Option Int) (serr : String) :
    run_attempt_loop cancel_at k (none :: rest) sid ds cnt ss sc serr =
      if cancel_observed cancel_at k then
        ([Effect.kill, Effect.wait_child], StreamingAttemptState.cancelled)
      else run_attempt_loop cancel_at (k + 1) rest sid ds cnt ss sc serr := rfl

lemma run_attempt_loop_json (cancel_at : Option Nat) (k : Nat) (j : Json)
    (rest : List (Option Json)) (sid : Option String) (ds : Bool) (cnt : Nat)
    (ss : Bool) (sc : Option Int) (serr : String) :
    run_attempt_loop cancel_at k (some j :: rest) sid ds cnt ss sc serr =
      if cancel_observed cancel_at k then
        ([Effect.kill, Effect.wait_child], StreamingAttemptState.cancelled)
      else
        ((adjust_messages (parse_codex_stream_line j) sid ds).1.map Effect.send ++
          (run_attempt_loop cancel_at (k + 1) rest
            (adjust_messages (parse_codex_stream_line j) sid ds).2.1
            (adjust_messages (parse_codex_stream_line j) sid ds).2.2
            (cnt + (adjust_messages (parse_codex_stream_line j) sid ds).1.length)
            ss sc serr).1,
          (run_attempt_loop cancel_at (k + 1) rest
            (adjust_messages (parse_codex_stream_line j) sid ds).2.1
            (adjust_messages (parse_codex_stream_line j) sid ds).2.2
            (cnt + (adjust_messages (parse_codex_stream_line j) sid ds).1.length)
            ss sc serr).2) := rfl

lemma emitted_events_json (j : Json) (rest : List (Option Json))
    (sid : Option String) (ds : Bool) :
    emitted_events (some j :: rest) sid ds =
      (adjust_messages (parse_codex_stream_line j) sid ds).1 ++
        emitted_events rest
          (adjust_messages (parse_codex_stream_line j) sid ds).2.1
          (adjust_messages (parse_codex_stream_line j) sid ds).2.2 := rfl

lemma run_attempt_loop_cancel :
    ∀ (lines : List (Option Json)) (n k : Nat) (last_session_id : Option String)
      (done_sent : Bool) (count : Nat) (status_success : Bool)
      (status_code : Option Int) (stderr_output : String),
      n ≤ k + lines.length + 1 →
      run_attempt_loop (some n) k lines last_session_id done_sent count
          status_success status_code stderr_output =
        ((emitted_events (lines.take (n - k)) last_session_id done_sent).map
            Effect.send ++ [Effect.kill, Effect.wait_child],
          StreamingAttemptState.cancelled) := by
  intro lines
  induction lines with
  | nil =>
    intro n k last_session_id done_sent count ss sc serr hbound
    by_cases hk : n ≤ k
    · rw [run_attempt_loop_nil, if_pos (by simp [cancel_observed]; omega)]
      have h0 : n - k = 0 := by omega
      rw [h0]
      rfl
    · rw [run_attempt_loop_nil, if_neg (by simp [cancel_observed]; omega),
        if_pos (by simp only [List.length_nil] at hbound; simp [cancel_observed]; omega)]
      cases hnk : n - k with
      | zero => rfl
      | succ m => rfl
  | cons line rest ih =>
    intro n k last_session_id done_sent count ss sc serr hbound
    by_cases hk : n ≤ k
    · cases line with
      | none =>
        rw [run_attempt_loop_skip, if_pos (by simp [cancel_observed]; omega)]
        have h0 : n - k = 0 := by omega
        rw [h0]
        rfl
      | some j =>
        rw [run_attempt_loop_json, if_pos (by simp [cancel_observed]; omega)]
        have h0 : n - k = 0 := by omega
        rw [h0]
        rfl
    · have htake : n - k = (n - (k + 1)) + 1 := by omega
      have hbound2 : n ≤ (k + 1) + rest.length + 1 := by
        simp only [List.length_cons] at hbound
        omega
      cases line with
      | none =>
        rw [run_attempt_loop_skip, if_neg (by simp [cancel_observed]; omega)]
        rw [ih n (k + 1) last_session_id done_sent count ss sc serr hbound2]
        rw [htake, List.take_succ_cons]
        rfl
      | some j =>
        rw [run_attempt_loop_json, if_neg (by simp [cancel_observed]; omega)]
        rw [ih n (k + 1)
          (adjust_messages (parse_codex_stream_line j) last_session_id done_sent).2.1
          (adjust_messages (parse_codex_stream_line j) last_session_id done_sent).2.2
          (count + (adjust_messages (parse_codex_stream_line j) last_session_id
            done_sent).1.length) ss sc serr hbound2]
        rw [htake, List.take_succ_cons, emitted_events_json]
        simp [List.map_append, List.append_assoc]

/-- C4: whenever the cancellation flag is observed set at one of the checks
(before each read or after stream exhaustion), the attempt kills and awaits
the subprocess and returns the distinct cancelled outcome, having sent
exactly the events of the lines processed before the observation and none
after; and the orchestrator then returns at once, synthesizing no `Error`
or `Done` event. -/
theorem c4_cancellation :
    (∀ (lines : List (Option Json)) (n : Nat) (status_success : Bool)
        (status_code : Option Int) (stderr_output : String),
        n ≤ lines.length + 1 →
        execute_command_streaming_once lines (some n) status_success status_code
            stderr_output =
          ((emitted_events (lines.take n) none false).map Effect.send ++
            [Effect.kill, Effect.wait_child], StreamingAttemptState.cancelled)) ∧
    (∀ (backend : BackendKind) (madmax : Bool) (working_dir : String)
        (session_id : Option String)
        (rest : List (Except String StreamingAttemptState)),
        (∃ args, backend_args backend madmax session_id working_dir = Except.ok args) →
        execute_command_streaming_loop backend madmax working_dir
            (Except.ok StreamingAttemptState.cancelled :: rest) session_id false =
          Except.ok ⟨[session_id], [], true⟩) := by
  constructor
  · intro lines n ss sc serr hbound
    unfold execute_command_streaming_once
    rw [run_attempt_loop_cancel lines n 0 none false 0 ss sc serr (by omega)]
    rfl
  · intro backend madmax working_dir session_id rest hargs
    obtain ⟨args0, hargs0⟩ := hargs
    exact streaming_loop_cancelled backend madmax working_dir rest session_id false
      args0 hargs0

/-- Witness for C4: cancellation observed at check 1 after one line. -/
theorem c4_witness :
    execute_command_streaming_once
        [some (Json.obj [("type", Json.str "turn.completed")]), none] (some 1)
        true (some 0) "" =
      ((emitted_events
          ([some (Json.obj [("type", Json.str "turn.completed")]), none].take 1)
          none false).map Effect.send ++ [Effect.kill, Effect.wait_child],
        StreamingAttemptState.cancelled) ∧
    execute_command_streaming_loop BackendKind.codex false "/tmp"
        [Except.ok StreamingAttemptState.cancelled] none false =
      Except.ok ⟨[none], [], true⟩ :=
  ⟨c4_cancellation.1 _ 1 true (some 0) "" (by decide),
   c4_cancellation.2 BackendKind.codex false "/tmp" none [] ⟨_, rfl⟩⟩

end Opencodex
